import Mathlib

/-!
Verification of the tusk-mcp core against its specification.

The definitions below are a shallow embedding of the repository's
TypeScript source:

* `stripNonCode`, `isReadOnlyQuery` — `src/utils.ts` (read-only SQL
  classifier built from a chain of regex replacements and a two-pass
  keyword check);
* `parseConnectionString`, `decodeComponent` — the manual connection
  string parser of `src/utils.ts`;
* `buildSslConfig`, `resolvePassword`, `resolveConnOptions`,
  `checkTunnelFlags` — the configuration-resolution logic of
  `src/index.ts`;
* `executeQueryModel` — the row-limiting/truncation logic of
  `executeQuery` in `src/client.ts`.

Strings are processed as `List Char`.  JavaScript regex replacement
passes are embedded as fuel-indexed recursive scanners (the fuel is the
input length, which always suffices, so the functions compute by kernel
reduction).  JavaScript `??` (nullish coalescing) is `nullishS`/`nullishO`;
JavaScript truthiness of an optional string flag is `presentStr`.
-/

/-- The set of whitespace characters used by JS `trim`, `split(/\s+/)` and
`parseInt` (ECMA WhiteSpace plus LineTerminator code points). -/
def jsWhitespace (c : Char) : Bool :=
  let n := c.toNat
  n = 9 || n = 10 || n = 11 || n = 12 || n = 13 || n = 32 || n = 160 ||
  n = 0x1680 || (0x2000 ≤ n && n ≤ 0x200A) || n = 0x2028 || n = 0x2029 ||
  n = 0x202F || n = 0x205F || n = 0x3000 || n = 0xFEFF

/-- The single-quote character (code 39). -/
def singleQuoteChar : Char := Char.ofNat 39

/-- The double-quote character (code 34). -/
def doubleQuoteChar : Char := Char.ofNat 34

/-- `listStartsWith p l` is true when `p` is an initial segment of `l`. -/
def listStartsWith : List Char → List Char → Bool
  | [], _ => true
  | _ :: _, [] => false
  | a :: as, b :: bs => a = b && listStartsWith as bs

/-- JS `String.prototype.trim`, on character lists. -/
def trimCharsJs (l : List Char) : List Char :=
  ((l.dropWhile jsWhitespace).reverse.dropWhile jsWhitespace).reverse

/-- JS `String.prototype.trim`. -/
def trimStr (s : String) : String := ⟨trimCharsJs s.data⟩

/-- Character-wise upper-casing; agrees with JS `toUpperCase` on the ASCII
inputs the classifier deals in. -/
def toUpperStr (s : String) : String := ⟨s.data.map Char.toUpper⟩

/-- `upper.split(/\s+/)[0]` for a trimmed string: the longest whitespace-free
initial segment. -/
def firstTokenStr (s : String) : String :=
  ⟨s.data.takeWhile (fun c => !jsWhitespace c)⟩

/-! ### The regex-replacement passes of `stripNonCode` (src/utils.ts)

Each global `replace` is embedded as a left-to-right scanner: at each
position the pattern either matches (the match is replaced by a single
blank and scanning resumes after it) or the character is copied and the
scanner advances by one — exactly the JS regex-engine behaviour for these
backtracking-free patterns.  The outer scanners take a fuel argument
(instantiated with the input length by `runStrip`) so that they are
structurally recursive and compute by kernel reduction. -/

/-- After an opening `/*`, the text following the first `*/`, if any
(the non-greedy close of `/\*[\s\S]*?\*\//`). -/
def afterBlockClose : List Char → Option (List Char)
  | [] => none
  | c1 :: rest =>
    match rest with
    | c2 :: rest2 =>
      if c1 = '*' ∧ c2 = '/' then some rest2 else afterBlockClose rest
    | [] => none

/-- Pass 1 of `stripNonCode`: `query.replace(/\/\*[\s\S]*?\*\//g, ' ')`. -/
def stripBlockComments : Nat → List Char → List Char
  | 0, l => l
  | _ + 1, [] => []
  | fuel + 1, c :: rest =>
    if c = '/' then
      match rest with
      | c2 :: rest2 =>
        if c2 = '*' then
          match afterBlockClose rest2 with
          | some r => ' ' :: stripBlockComments fuel r
          | none => c :: stripBlockComments fuel rest
        else c :: stripBlockComments fuel rest
      | [] => [c]
    else c :: stripBlockComments fuel rest

/-- The remainder of the current line: drops characters up to, but not
including, the next newline (the span matched by `.*$` in multiline mode). -/
def restOfLine : List Char → List Char
  | [] => []
  | c :: rest => if c = '\n' then c :: rest else restOfLine rest

/-- Pass 2 of `stripNonCode`: the global multiline replace of the
line-comment pattern (two dashes, then `.*$`) by a blank. -/
def stripLineComments : Nat → List Char → List Char
  | 0, l => l
  | _ + 1, [] => []
  | fuel + 1, c :: rest =>
    if c = '-' then
      match rest with
      | c2 :: rest2 =>
        if c2 = '-' then ' ' :: stripLineComments fuel (restOfLine rest2)
        else c :: stripLineComments fuel rest
      | [] => [c]
    else c :: stripLineComments fuel rest

/-- After an opening `$`, the dollar-quote tag (`[^$]*`) and the text after
the tag-closing `$`; `none` when no further `$` exists. -/
def readDollarTag : List Char → Option (List Char × List Char)
  | [] => none
  | c :: rest =>
    if c = '$' then some ([], rest)
    else
      match readDollarTag rest with
      | some (t, r) => some (c :: t, r)
      | none => none

/-- The text after the first occurrence of `pat` (used to locate the
non-greedy closing `$tag$`). -/
def afterFirstOccurrence (pat : List Char) : List Char → Option (List Char)
  | [] => none
  | c :: rest =>
    if listStartsWith pat (c :: rest) then some ((c :: rest).drop pat.length)
    else afterFirstOccurrence pat rest

/-- Pass 3 of `stripNonCode`: `.replace(/\$([^$]*)\$[\s\S]*?\$\1\$/g, ' ')`. -/
def stripDollarQuoted : Nat → List Char → List Char
  | 0, l => l
  | _ + 1, [] => []
  | fuel + 1, c :: rest =>
    if c = '$' then
      match readDollarTag rest with
      | some (tag, afterOpen) =>
        match afterFirstOccurrence ('$' :: (tag ++ ['$'])) afterOpen with
        | some r => ' ' :: stripDollarQuoted fuel r
        | none => c :: stripDollarQuoted fuel rest
      | none => c :: stripDollarQuoted fuel rest
    else c :: stripDollarQuoted fuel rest

/-- The text after the next occurrence of the quote character `q`. -/
def afterQuote (q : Char) : List Char → Option (List Char)
  | [] => none
  | c :: rest => if c = q then some rest else afterQuote q rest

/-- Passes 4 and 5 of `stripNonCode`: `.replace(/'[^']*'/g, ' ')` and
`.replace(/"[^"]*"/g, ' ')`, parameterised by the quote character. -/
def stripQuotedWith (q : Char) : Nat → List Char → List Char
  | 0, l => l
  | _ + 1, [] => []
  | fuel + 1, c :: rest =>
    if c = q then
      match afterQuote q rest with
      | some r => ' ' :: stripQuotedWith q fuel r
      | none => c :: stripQuotedWith q fuel rest
    else c :: stripQuotedWith q fuel rest

/-- Runs a fuel-indexed scanner with fuel equal to the input length (the
scanners consume at least one character per fuel unit, so this always
suffices). -/
def runStrip (f : Nat → List Char → List Char) (l : List Char) : List Char :=
  f l.length l

/-- `stripNonCode` from src/utils.ts: blanks out block comments, line
comments, dollar-quoted bodies, single-quoted literals and double-quoted
identifiers, in that order. -/
def stripNonCode (query : String) : String :=
  let s1 := runStrip stripBlockComments query.data
  let s2 := runStrip stripLineComments s1
  let s3 := runStrip stripDollarQuoted s2
  let s4 := runStrip (stripQuotedWith singleQuoteChar) s3
  let s5 := runStrip (stripQuotedWith doubleQuoteChar) s4
  ⟨s5⟩

/-! ### The two-pass classifier `isReadOnlyQuery` (src/utils.ts) -/

/-- `ALLOWED_PREFIXES` from src/utils.ts: the first-word allow-set. -/
def ALLOWED_FIRST_WORDS : List String :=
  ["SELECT", "WITH", "EXPLAIN", "SHOW", "VALUES", "TABLE"]

/-- `WRITE_KEYWORDS` from src/utils.ts: the write/DDL/transaction-control
block-set. -/
def WRITE_KEYWORDS : List String :=
  ["INSERT", "UPDATE", "DELETE", "DROP", "ALTER", "TRUNCATE",
   "CREATE", "GRANT", "REVOKE", "COPY", "MERGE", "CALL",
   "DO", "LOCK", "REINDEX", "REFRESH", "CLUSTER", "VACUUM",
   "DISCARD", "SET", "RESET", "BEGIN", "COMMIT", "ROLLBACK",
   "SAVEPOINT", "PREPARE", "DEALLOCATE", "EXECUTE", "REASSIGN", "IMPORT"]

/-- JS regex word characters `[A-Za-z0-9_]` (the `\b` boundary classes). -/
def isWordChar (c : Char) : Bool :=
  (('A' ≤ c && c ≤ 'Z') || ('a' ≤ c && c ≤ 'z') ||
   ('0' ≤ c && c ≤ '9') || c = '_')

/-- There is a word boundary between the end of a keyword and `l`. -/
def wordBoundaryAfter (l : List Char) : Bool :=
  match l with
  | [] => true
  | c :: _ => !isWordChar c

/-- Scanner for `new RegExp("\\b" + kw + "\\b").test(s)` with a non-empty
alphabetic `kw`: `prevOk` records whether the previous character (if any)
was a non-word character. -/
def containsWordFrom (kw : List Char) : Bool → List Char → Bool
  | _, [] => false
  | prevOk, c :: rest =>
    (prevOk && listStartsWith kw (c :: rest) &&
      wordBoundaryAfter ((c :: rest).drop kw.length)) ||
    containsWordFrom kw (!isWordChar c) rest

/-- `\b kw \b` whole-word containment on a string. -/
def containsWordStr (kw : String) (s : String) : Bool :=
  containsWordFrom kw.data true s.data

/-- The pass-2 scan of `isReadOnlyQuery`: some blocked keyword occurs as a
whole word in `s`. -/
def anyWriteKeyword (s : String) : Bool :=
  WRITE_KEYWORDS.any (fun kw => containsWordStr kw s)

/-- `isReadOnlyQuery` from src/utils.ts. -/
def isReadOnlyQuery (query : String) : Bool :=
  if trimStr (stripNonCode query) = "" then false
  else if ALLOWED_FIRST_WORDS.contains
      (firstTokenStr (toUpperStr (trimStr (stripNonCode query)))) then
    !anyWriteKeyword (toUpperStr (trimStr (stripNonCode query)))
  else false

/-! ### The connection string parser (src/utils.ts) -/

/-- JS `indexOf` of a character, on character lists. -/
def indexOfChar (c : Char) : List Char → Option Nat
  | [] => none
  | x :: rest =>
    if x = c then some 0 else (indexOfChar c rest).map (fun i => i + 1)

/-- JS `lastIndexOf` of a character, on character lists. -/
def lastIndexOfChar (c : Char) : List Char → Option Nat
  | [] => none
  | x :: rest =>
    match lastIndexOfChar c rest with
    | some i => some (i + 1)
    | none => if x = c then some 0 else none

/-- JS `indexOf` of a substring, on character lists. -/
def indexOfSub (pat : List Char) : List Char → Option Nat
  | [] => if listStartsWith pat [] then some 0 else none
  | c :: rest =>
    if listStartsWith pat (c :: rest) then some 0
    else (indexOfSub pat rest).map (fun i => i + 1)

/-- The value of a decimal digit. -/
def decDigitVal (c : Char) : Option Nat :=
  if '0' ≤ c ∧ c ≤ '9' then some (c.toNat - 48) else none

/-- The value of a hexadecimal digit. -/
def hexDigitVal (c : Char) : Option Nat :=
  if '0' ≤ c ∧ c ≤ '9' then some (c.toNat - 48)
  else if 'a' ≤ c ∧ c ≤ 'f' then some (c.toNat - 87)
  else if 'A' ≤ c ∧ c ≤ 'F' then some (c.toNat - 55)
  else none

/-- Accumulates the longest run of leading digits; `none` when there is no
leading digit at all (JS `NaN`). -/
def parseLeadingDigits (digitVal : Char → Option Nat) (radix : Nat) :
    Option Nat → List Char → Option Nat
  | acc, [] => acc
  | acc, c :: rest =>
    match digitVal c with
    | some d => parseLeadingDigits digitVal radix (some (acc.getD 0 * radix + d)) rest
    | none => acc

/-- The digit part of JS `parseInt` after the optional sign: a `0x`/`0X`
head selects radix 16, otherwise radix 10. -/
def parseUnsigned : List Char → Option Nat
  | '0' :: c :: rest =>
    if c = 'x' ∨ c = 'X' then parseLeadingDigits hexDigitVal 16 none rest
    else parseLeadingDigits decDigitVal 10 none ('0' :: c :: rest)
  | l => parseLeadingDigits decDigitVal 10 none l

/-- JS `parseInt(s)` (no radix argument): `none` is `NaN`.  Values are
exact integers here, where JS would round very large ones to doubles. -/
def jsParseInt (s : String) : Option Int :=
  match s.data.dropWhile jsWhitespace with
  | [] => none
  | c :: rest =>
    if c = '-' then (parseUnsigned rest).map (fun n => -(n : Int))
    else if c = '+' then (parseUnsigned rest).map (fun n => (n : Int))
    else (parseUnsigned (c :: rest)).map (fun n => (n : Int))

/-- A `%XX` escape: the octet value and the remaining characters. -/
def pctByte : List Char → Option (Nat × List Char)
  | p :: h1 :: h2 :: rest =>
    if p = '%' then
      match hexDigitVal h1, hexDigitVal h2 with
      | some a, some b => some (16 * a + b, rest)
      | _, _ => none
    else none
  | _ => none

/-- A `%XX` escape that must be a UTF-8 continuation octet; yields its
payload bits. -/
def contByte (l : List Char) : Option (Nat × List Char) :=
  match pctByte l with
  | some (b, r) => if 0x80 ≤ b ∧ b < 0xC0 then some (b - 0x80, r) else none
  | none => none

/-- One escape sequence of ECMA-262 `Decode`: a `%XX` run forming a single
valid UTF-8 scalar (strict: no overlong forms, no surrogates, at most
U+10FFFF); `none` is a `URIError`. -/
def decodeEscSeq (l : List Char) : Option (Char × List Char) :=
  match pctByte l with
  | none => none
  | some (b, r1) =>
    if b < 0x80 then some (Char.ofNat b, r1)
    else if b < 0xC0 then none
    else if b < 0xE0 then
      match contByte r1 with
      | some (x1, r2) =>
        let cp := (b - 0xC0) * 0x40 + x1
        if 0x80 ≤ cp then some (Char.ofNat cp, r2) else none
      | none => none
    else if b < 0xF0 then
      match contByte r1 with
      | some (x1, r2) =>
        match contByte r2 with
        | some (x2, r3) =>
          let cp := (b - 0xE0) * 0x1000 + x1 * 0x40 + x2
          if 0x800 ≤ cp ∧ ¬(0xD800 ≤ cp ∧ cp ≤ 0xDFFF) then
            some (Char.ofNat cp, r3)
          else none
        | none => none
      | none => none
    else if b < 0xF8 then
      match contByte r1 with
      | some (x1, r2) =>
        match contByte r2 with
        | some (x2, r3) =>
          match contByte r3 with
          | some (x3, r4) =>
            let cp := (b - 0xF0) * 0x40000 + x1 * 0x1000 + x2 * 0x40 + x3
            if 0x10000 ≤ cp ∧ cp ≤ 0x10FFFF then some (Char.ofNat cp, r4)
            else none
          | none => none
        | none => none
      | none => none
    else none

/-- ECMA-262 `Decode` with an empty reserved set, i.e. the body of JS
`decodeURIComponent`; fuel-indexed (instantiated with the input length). -/
def pctDecodeAux : Nat → List Char → Option (List Char)
  | _, [] => some []
  | 0, _ :: _ => none
  | fuel + 1, c :: rest =>
    if c = '%' then
      match decodeEscSeq (c :: rest) with
      | some (ch, r) =>
        match pctDecodeAux fuel r with
        | some t => some (ch :: t)
        | none => none
      | none => none
    else
      match pctDecodeAux fuel rest with
      | some t => some (c :: t)
      | none => none

/-- `decodeComponent` from src/utils.ts: `decodeURIComponent` with a
fallback to the raw string when decoding throws. -/
def decodeComponent (s : String) : String :=
  match pctDecodeAux s.data.length s.data with
  | some l => ⟨l⟩
  | none => s

/-- The record returned by `parseConnectionString` in src/utils.ts.
`port` is an `Int` because the source applies JS `parseInt` without any
range clamping. -/
structure ParsedCS where
  host : String
  port : Int
  user : Option String
  password : Option String
  database : Option String
  deriving DecidableEq, Repr

deriving instance DecidableEq for Except

/-- JS `s || d` for strings: the default replaces the empty (falsy) string. -/
def jsStrOr (s d : String) : String := if s = "" then d else s

/-- JS `s || undefined` for strings: an empty string becomes `undefined`. -/
def strOrUndefined (s : String) : Option String :=
  if s = "" then none else some s

/-- The `'://'` scheme separator searched for by the parser. -/
def schemeSeparator : List Char := [':', '/', '/']

/-- `parseConnectionString` from src/utils.ts: locates `://`, splits the
remainder at the last `@` into credentials and host part, the credentials
at the first `:`, the host part at the first `/` (then `?`) for the
database, and the host:port at the last `:`. -/
def parseConnectionString (cs : String) : Except String ParsedCS :=
  match indexOfSub schemeSeparator cs.data with
  | none => .error "Invalid connection string: expected a scheme separator"
  | some schemeEnd =>
    let rest := cs.data.drop (schemeEnd + 3)
    match lastIndexOfChar '@' rest with
    | none => .error "Invalid connection string: missing at-sign between credentials and host"
    | some lastAt =>
      let userInfo := rest.take lastAt
      let hostPart := rest.drop (lastAt + 1)
      let colonIdx := indexOfChar ':' userInfo
      let user : String :=
        match colonIdx with
        | some i => decodeComponent ⟨userInfo.take i⟩
        | none => decodeComponent ⟨userInfo⟩
      let password : Option String :=
        match colonIdx with
        | some i => some (decodeComponent ⟨userInfo.drop (i + 1)⟩)
        | none => none
      let pathIdx := indexOfChar '/' hostPart
      let hostPort :=
        match pathIdx with
        | some i => hostPart.take i
        | none => hostPart
      let dbRaw : Option (List Char) :=
        match pathIdx with
        | some i => some (hostPart.drop (i + 1))
        | none => none
      let database : Option String :=
        match dbRaw with
        | some d => strOrUndefined ⟨d.takeWhile (fun c => c ≠ '?')⟩
        | none => none
      let portIdx := lastIndexOfChar ':' hostPort
      let host :=
        match portIdx with
        | some i => hostPort.take i
        | none => hostPort
      let port : Option Int :=
        match portIdx with
        | some i => jsParseInt ⟨hostPort.drop (i + 1)⟩
        | none => some 5432
      .ok {
        host := jsStrOr ⟨host⟩ "localhost",
        port := port.getD 5432,
        user := strOrUndefined user,
        password :=
          match password with
          | some p => strOrUndefined p
          | none => none,
        database := database }

/-! ### Configuration resolution (src/index.ts)

`ConnectionFlags` mirrors the parsed CLI flags (`parsedFlags` in `main`);
`port`/`sshPort` carry the already-`parseInt`-ed numeric value.  JS
truthiness of an optional string (`if (flags.x)`) is `presentStr`; JS
nullish coalescing (`a ?? b`) is `nullishS`/`nullishO`. -/

/-- The CLI flag record (`ConnectionFlags` in src/types.ts). -/
structure ConnectionFlags where
  host : Option String := none
  port : Option Int := none
  user : Option String := none
  password : Option String := none
  passwordFile : Option String := none
  passwordCmd : Option String := none
  database : Option String := none
  connectionString : Option String := none
  ssl : Bool := false
  sslCa : Option String := none
  sslCert : Option String := none
  sslKey : Option String := none
  sshHost : Option String := none
  sshPort : Option Int := none
  sshUser : Option String := none
  sshKey : Option String := none
  sshPassword : Option String := none
  structureOnly : Bool := false
  deriving DecidableEq, Repr

/-- The `PG*` environment and `DATABASE_URL` (absent variables are `none`;
a set-but-empty variable is `some ""`). -/
structure EnvVars where
  pghost : Option String := none
  pgport : Option String := none
  pguser : Option String := none
  pgpassword : Option String := none
  pgdatabase : Option String := none
  databaseUrl : Option String := none
  deriving DecidableEq, Repr

/-- JS truthiness of an optional string: present and non-empty. -/
def presentStr (o : Option String) : Option String :=
  match o with
  | some s => if s = "" then none else some s
  | none => none

/-- JS `a ?? b` where `a` is an optional string and `b` a string. -/
def nullishS (a : Option String) (b : String) : String :=
  match a with
  | some s => s
  | none => b

/-- JS `a ?? b` on two optionals (an explicit `undefined` in `a` falls
through to `b`; any present value, falsy or not, does not). -/
def nullishO {α : Type} (a b : Option α) : Option α :=
  match a with
  | some x => some x
  | none => b

/-- The value assigned to `connOptions.ssl` by `buildSslConfig`
(src/index.ts, lines 29–43): `disabled` is the literal `false`, otherwise
a `rejectUnauthorized` record with the loaded certificate material. -/
inductive SslConfigM where
  | disabled
  | enabled (rejectUnauthorized : Bool) (ca cert key : Option String)
  deriving DecidableEq, Repr

/-- The `rejectUnauthorized` field of an SSL config, when one exists. -/
def sslRejectUnauthorized : SslConfigM → Option Bool
  | .disabled => none
  | .enabled r _ _ _ => some r

/-- `buildSslConfig` from src/index.ts.  `fs` maps a path to the contents
`readFile` would return (an unreadable path, which would reject and abort
startup, is outside this model). -/
def buildSslConfig (fs : String → String) (flags : ConnectionFlags) : SslConfigM :=
  if flags.ssl = false ∧ presentStr flags.sslCa = none ∧
      presentStr flags.sslCert = none ∧ presentStr flags.sslKey = none then
    .disabled
  else if presentStr flags.sslCa = none ∧ presentStr flags.sslCert = none ∧
      presentStr flags.sslKey = none then
    .enabled false none none none
  else
    .enabled true (Option.map fs (presentStr flags.sslCa))
      (Option.map fs (presentStr flags.sslCert))
      (Option.map fs (presentStr flags.sslKey))

/-- `resolvePassword` from src/index.ts: literal flag, else trimmed file
contents, else trimmed output of the password command (whose failure,
`exec = none`, is an error), else `PGPASSWORD`. -/
def resolvePassword (env : EnvVars) (fs : String → String)
    (exec : String → Option String) (flags : ConnectionFlags) :
    Except String (Option String) :=
  match presentStr flags.password with
  | some p => .ok (some p)
  | none =>
    match presentStr flags.passwordFile with
    | some f => .ok (some (trimStr (fs f)))
    | none =>
      match presentStr flags.passwordCmd with
      | some c =>
        match exec c with
        | some out => .ok (some (trimStr out))
        | none => .error "password-cmd failed"
      | none => .ok env.pgpassword

/-- The five connection fields resolved by `main` (src/index.ts, lines
82–105).  `port` is `Option Int` with `none` playing JS `NaN` (an unset
`PGPORT` yields `some 5432`; a set but unparsable one yields `NaN`). -/
structure ConnOptions where
  host : String
  port : Option Int
  user : Option String
  password : Option String
  database : Option String
  deriving DecidableEq, Repr

/-- The object spread `{ ...base, ...parseConnectionString(url) }`: the
parsed record owns all five keys (optional ones possibly as an explicit
`undefined`), so every field of `base` is overwritten. -/
def mergeCS (_base : ConnOptions) (p : ParsedCS) : ConnOptions :=
  { host := p.host, port := some p.port, user := p.user,
    password := p.password, database := p.database }

/-- The `base` seed of `main`: `PG*` variables with `localhost:5432`
defaults (`PGHOST ?? 'localhost'` is nullish, `PGPORT ? parseInt : 5432`
is truthy). -/
def baseFromEnv (env : EnvVars) : ConnOptions :=
  { host := env.pghost.getD "localhost",
    port :=
      match presentStr env.pgport with
      | some s => jsParseInt s
      | none => some 5432,
    user := env.pguser,
    password := env.pgpassword,
    database := env.pgdatabase }

/-- Lines 82–105 of src/index.ts: the layered resolution of the five
connection fields — `PG*` seed, then `DATABASE_URL` spread, then the
`--connection-string` flag spread, then per-field flags via `??`, with the
password routed through `resolvePassword`.  A parse failure of either
connection string, or a password-command failure, aborts (is an error), in
the source's evaluation order. -/
def resolveConnOptions (env : EnvVars) (fs : String → String)
    (exec : String → Option String) (flags : ConnectionFlags) :
    Except String ConnOptions :=
  let step1 : Except String ConnOptions :=
    match presentStr env.databaseUrl with
    | some url => Except.map (mergeCS (baseFromEnv env)) (parseConnectionString url)
    | none => Except.ok (baseFromEnv env)
  match step1 with
  | .error e => .error e
  | .ok base1 =>
    let step2 : Except String ConnOptions :=
      match presentStr flags.connectionString with
      | some s => Except.map (mergeCS base1) (parseConnectionString s)
      | none => Except.ok base1
    match step2 with
    | .error e => .error e
    | .ok base2 =>
      match resolvePassword env fs exec flags with
      | .error e => .error e
      | .ok pw =>
        Except.ok {
          host := nullishS flags.host base2.host,
          port := nullishO flags.port base2.port,
          user := nullishO flags.user base2.user,
          password := nullishO pw base2.password,
          database := nullishO flags.database base2.database }

/-! ### Tunnel flag validation (src/index.ts, lines 111–127) -/

/-- The options handed to `createTunnel` (src/types.ts `TunnelOptions`,
without the database-side `targetHost`/`targetPort`, which are copied
unchanged from the resolved connection). -/
structure TunnelSpec where
  sshHost : String
  sshPort : Int
  sshUser : String
  sshKey : Option String
  sshPassword : Option String
  deriving DecidableEq, Repr

/-- The tunnel-configuration step of `main`: no tunnel when `--ssh-host`
is absent; with it, `--ssh-user` is required, and so is at least one of
`--ssh-key` / `--ssh-password`.  Both errors are raised before
`createTunnel` is invoked, hence before any network activity. -/
def checkTunnelFlags (flags : ConnectionFlags) : Except String (Option TunnelSpec) :=
  match presentStr flags.sshHost with
  | none => .ok none
  | some h =>
    match presentStr flags.sshUser with
    | none => .error "ssh-user is required when using ssh-host"
    | some u =>
      if presentStr flags.sshKey = none ∧ presentStr flags.sshPassword = none then
        .error "ssh-key or ssh-password is required when using ssh-host"
      else
        .ok (some { sshHost := h, sshPort := flags.sshPort.getD 22, sshUser := u,
                    sshKey := flags.sshKey, sshPassword := flags.sshPassword })

/-! ### Row limiting in `executeQuery` (src/client.ts, lines 317–341)

The database interaction is abstracted: `fetched` is the row list the
over-fetching query (`LIMIT effectiveLimit + 1`) returned.  The
truncation/slicing/counting logic is the source's, verbatim. -/

/-- The caller-visible part of `QueryResult` this model tracks (columns
are taken from the engine metadata and are orthogonal to truncation). -/
structure QueryResultM (α : Type) where
  rows : List α
  rowCount : Nat
  truncated : Bool

/-- The limit/truncation logic of `executeQuery`:
`effectiveLimit = Math.min(limit, 5000)`, `truncated` iff the fetch
returned more rows than that, `rows` sliced to the effective limit when
truncated, `rowCount = rows.length`. -/
def executeQueryModel {α : Type} (limit : Nat) (fetched : List α) : QueryResultM α :=
  let effectiveLimit := min limit 5000
  let truncated := decide (fetched.length > effectiveLimit)
  let resultRows := if truncated then fetched.take effectiveLimit else fetched
  { rows := resultRows, rowCount := resultRows.length, truncated := truncated }

/-! ### Named concrete inputs used by the theorems below -/

/-- A single-quote as a one-character string (to build SQL literals). -/
def sqlSingleQuote : String := ⟨[singleQuoteChar]⟩

/-- The statement with a write keyword inside a string literal. -/
def literalKeywordQuery : String :=
  "SELECT " ++ sqlSingleQuote ++ "DROP TABLE users" ++ sqlSingleQuote

/-- The statement with a write keyword inside a line comment. -/
def commentKeywordQuery : String := "-- DROP TABLE users\nSELECT 1"

/-- A file system in which every path holds the text `PEM`. -/
def pemContents : String → String := fun _ => "PEM"

/-- Flags supplying a client certificate path but no CA and no enable flag. -/
def certOnlyFlags : ConnectionFlags := { sslCert := some "client.pem" }

/-- The empty flag set (every CLI flag absent). -/
def defaultFlags : ConnectionFlags := {}

/-- A file system whose files are all empty (never consulted below). -/
def noFs : String → String := fun _ => ""

/-- A command runner on which every command fails (never consulted below). -/
def noExec : String → Option String := fun _ => none

/-- Environment with `PGDATABASE` set and a `DATABASE_URL` that carries no
database path. -/
def envDbBehindUrl : EnvVars :=
  { pgdatabase := some "envdb",
    databaseUrl := some "postgresql://alice:pw@dbhost:5433" }

/-- Environment with `PGUSER` and `PGPASSWORD` set (and no `DATABASE_URL`). -/
def envUserPw : EnvVars :=
  { pguser := some "envuser", pgpassword := some "envpw" }

/-- Flags carrying a `--user` flag next to a `--connection-string` flag. -/
def userAndCsFlags : ConnectionFlags :=
  { user := some "flaguser",
    connectionString := some "postgresql://u:urlpw@h:1/db" }

/-- Whether an `Except` value is an error. -/
def exceptIsError {ε α : Type} : Except ε α → Bool
  | .error _ => true
  | .ok _ => false

/-- Tunnel flags supplying both a private key and a password. -/
def bothAuthFlags : ConnectionFlags :=
  { sshHost := some "bastion", sshUser := some "alice",
    sshKey := some "id_rsa", sshPassword := some "hunter2" }

/-- Tunnel flags supplying neither a private key nor a password. -/
def neitherAuthFlags : ConnectionFlags :=
  { sshHost := some "bastion", sshUser := some "alice" }

/-- The five statement kinds advertised by the execute-query tool
description in src/tools/query.ts. -/
def advertisedStatementKinds : List String :=
  ["SELECT", "WITH", "EXPLAIN", "SHOW", "VALUES"]

/-! ### Theorems -/

/-- Helper: the `host || 'localhost'` fallback never yields an empty host. -/
theorem jsStrOr_localhost_ne_empty (s : String) : jsStrOr s "localhost" ≠ "" := by
  unfold jsStrOr
  split
  · decide
  · assumption

/-- C1: if any keyword of the fixed write/DDL/transaction-control
block-set occurs as a whole word in the stripped (trimmed, upper-cased)
statement text, `isReadOnlyQuery` returns `false`, regardless of the
first token; in particular the statement hiding a `DELETE` inside a CTE
is rejected. -/
theorem write_keyword_scan_rejects :
    (∀ q : String,
      anyWriteKeyword (toUpperStr (trimStr (stripNonCode q))) = true →
        isReadOnlyQuery q = false) ∧
    isReadOnlyQuery "WITH x AS (DELETE FROM t RETURNING 1) SELECT * FROM x" = false := by
  constructor
  · intro q h
    unfold isReadOnlyQuery
    split
    · rfl
    · split
      · simp [h]
      · rfl
  · decide

/-- Witness for `write_keyword_scan_rejects` at a concrete statement whose
scan hits `DELETE`. -/
theorem write_keyword_scan_rejects_w :
    isReadOnlyQuery "SELECT 1 DELETE" = false :=
  write_keyword_scan_rejects.1 "SELECT 1 DELETE" (by decide)

/-- C2: a statement whose stripped text is empty (or whitespace-only,
trimmed away), or whose first whitespace-delimited token upper-cased is
not in the allow-set, is rejected; in particular the empty and the
blank statement are. -/
theorem first_token_gate_rejects :
    (∀ q : String,
      (trimStr (stripNonCode q) = "" ∨
        ALLOWED_FIRST_WORDS.contains
          (firstTokenStr (toUpperStr (trimStr (stripNonCode q)))) = false) →
        isReadOnlyQuery q = false) ∧
    isReadOnlyQuery "" = false ∧ isReadOnlyQuery "   " = false := by
  refine ⟨?_, by decide, by decide⟩
  intro q h
  rcases h with h | h
  · unfold isReadOnlyQuery
    simp [h]
  · have h2 : firstTokenStr (toUpperStr (trimStr (stripNonCode q))) ∉ ALLOWED_FIRST_WORDS := by
      simpa using h
    unfold isReadOnlyQuery
    simp [h2]

/-- Witness for `first_token_gate_rejects` at a concrete statement whose
first token is outside the allow-set. -/
theorem first_token_gate_rejects_w :
    isReadOnlyQuery "DELETE FROM t" = false :=
  first_token_gate_rejects.1 "DELETE FROM t" (Or.inr (by decide))

/-- C3: a write keyword occurring only inside a single-quoted string
literal, or only inside a line comment, does not cause rejection, because
both passes operate on the stripped copy of the statement. -/
theorem strings_and_comments_do_not_trigger :
    isReadOnlyQuery literalKeywordQuery = true ∧
    isReadOnlyQuery commentKeywordQuery = true := by decide

/-- C4: `executeQuery` caps the limit at 5000, reports `truncated` exactly
when the raw fetch returned more than the effective limit, trims the rows
to exactly the effective limit in that case, and always reports
`rowCount` equal to the number of returned rows. -/
theorem execute_query_limit_truncation (α : Type) (limit : Nat) (fetched : List α) :
    ((executeQueryModel limit fetched).truncated = true ↔
      min limit 5000 < fetched.length) ∧
    ((executeQueryModel limit fetched).truncated = true →
      (executeQueryModel limit fetched).rows.length = min limit 5000) ∧
    (executeQueryModel limit fetched).rowCount =
      (executeQueryModel limit fetched).rows.length := by
  refine ⟨?_, ?_, rfl⟩
  · simp [executeQueryModel]
  · intro ht
    have hlt : min limit 5000 < fetched.length := by
      simpa [executeQueryModel] using ht
    simp [executeQueryModel, hlt, List.length_take, Nat.min_eq_left (Nat.le_of_lt hlt)]

/-- Witness for `execute_query_limit_truncation`: three rows fetched
against an effective limit of two. -/
theorem execute_query_limit_truncation_w :
    (executeQueryModel 2 ([10, 20, 30] : List Nat)).rows.length = min 2 5000 :=
  (execute_query_limit_truncation Nat 2 [10, 20, 30]).2.1 (by decide)

/-- C5 counterexample: with only a client-certificate path (no CA, no
enable flag), `buildSslConfig` sets `rejectUnauthorized: true` — it is not
the claimed `Opportunistic` (`rejectUnauthorized: false`) outcome. -/
theorem ssl_cert_without_ca_is_verifying :
    sslRejectUnauthorized (buildSslConfig pemContents certOnlyFlags) = some true ∧
    sslRejectUnauthorized (buildSslConfig pemContents certOnlyFlags) ≠ some false := by
  decide

/-- C5 amended: no certificate-related input and no enable flag gives
`Disabled`; the enable flag alone (no CA, cert or key path) gives the
unverified (`rejectUnauthorized: false`) config; any of CA/cert/key
present gives `rejectUnauthorized: true` with whichever of the three
files are present attached. -/
theorem ssl_config_derivation (fs : String → String) (flags : ConnectionFlags) :
    (flags.ssl = false → presentStr flags.sslCa = none →
      presentStr flags.sslCert = none → presentStr flags.sslKey = none →
      buildSslConfig fs flags = .disabled) ∧
    (flags.ssl = true → presentStr flags.sslCa = none →
      presentStr flags.sslCert = none → presentStr flags.sslKey = none →
      buildSslConfig fs flags = .enabled false none none none) ∧
    (¬ (presentStr flags.sslCa = none ∧ presentStr flags.sslCert = none ∧
        presentStr flags.sslKey = none) →
      buildSslConfig fs flags =
        .enabled true (Option.map fs (presentStr flags.sslCa))
          (Option.map fs (presentStr flags.sslCert))
          (Option.map fs (presentStr flags.sslKey))) := by
  refine ⟨?_, ?_, ?_⟩
  · intro h1 h2 h3 h4
    unfold buildSslConfig
    rw [if_pos ⟨h1, h2, h3, h4⟩]
  · intro h1 h2 h3 h4
    unfold buildSslConfig
    rw [if_neg (by simp [h1]), if_pos ⟨h2, h3, h4⟩]
  · intro h
    unfold buildSslConfig
    rw [if_neg (fun hc => h ⟨hc.2.1, hc.2.2.1, hc.2.2.2⟩), if_neg h]

/-- Witness for `ssl_config_derivation`: the cert-only flags take the
`rejectUnauthorized: true` branch. -/
theorem ssl_config_derivation_w :
    buildSslConfig pemContents certOnlyFlags =
      .enabled true (Option.map pemContents (presentStr certOnlyFlags.sslCa))
        (Option.map pemContents (presentStr certOnlyFlags.sslCert))
        (Option.map pemContents (presentStr certOnlyFlags.sslKey)) :=
  (ssl_config_derivation pemContents certOnlyFlags).2.2 (by decide)

/-- C6 counterexample: with `PGDATABASE=envdb` and a `DATABASE_URL` that
carries no database path (and no flags), the resolved database is
`undefined`, not the environment's `envdb` — the connection string's
object-spread overwrites the `PG*` field with an explicit `undefined`
instead of letting it fall through. -/
theorem database_url_shadows_env_fields :
    resolveConnOptions envDbBehindUrl noFs noExec defaultFlags =
      Except.ok { host := "dbhost", port := some 5433, user := some "alice",
                  password := some "pw", database := none } ∧
    resolveConnOptions envDbBehindUrl noFs noExec defaultFlags ≠
      Except.ok { host := "dbhost", port := some 5433, user := some "alice",
                  password := some "pw", database := some "envdb" } := by
  decide

/-- C6 amended: each field is resolved per-field flag first; but a present
connection-string flag then supplies all five remaining fields itself
(fields it lacks become `undefined`, host and port their `localhost`/5432
defaults) rather than falling through to the `PG*` environment, and the
password position is filled by `resolvePassword` (flag, file, command,
then `PGPASSWORD`) before the connection string's password is consulted. -/
theorem connection_string_supplies_all_fields (env : EnvVars)
    (fs : String → String) (exec : String → Option String)
    (flags : ConnectionFlags) (cs : String) (p : ParsedCS) (pw : Option String)
    (hcs : presentStr flags.connectionString = some cs)
    (hp : parseConnectionString cs = Except.ok p)
    (hpw : resolvePassword env fs exec flags = Except.ok pw)
    (hdb : ∀ url, presentStr env.databaseUrl = some url →
      ∃ q, parseConnectionString url = Except.ok q) :
    resolveConnOptions env fs exec flags =
      Except.ok { host := nullishS flags.host p.host,
                  port := nullishO flags.port (some p.port),
                  user := nullishO flags.user p.user,
                  password := nullishO pw p.password,
                  database := nullishO flags.database p.database } := by
  unfold resolveConnOptions
  cases hu : presentStr env.databaseUrl with
  | none =>
    simp only [hu, hcs, hp, hpw, Except.map, mergeCS]
  | some url =>
    obtain ⟨q, hq⟩ := hdb url hu
    simp only [hu, hq, hcs, hp, hpw, Except.map, mergeCS]

/-- Witness for `connection_string_supplies_all_fields`: a `--user` flag
beside a `--connection-string` flag yields the flag's user with the
connection string's host, port and database, while `PGPASSWORD` wins over
the connection string's password. -/
theorem connection_string_supplies_all_fields_w :
    resolveConnOptions envUserPw noFs noExec userAndCsFlags =
      Except.ok { host := "h", port := some 1, user := some "flaguser",
                  password := some "envpw", database := some "db" } := by
  have h := connection_string_supplies_all_fields envUserPw noFs noExec
    userAndCsFlags "postgresql://u:urlpw@h:1/db"
    { host := "h", port := 1, user := some "u",
      password := some "urlpw", database := some "db" }
    (some "envpw") (by decide) (by decide) (by decide)
    (by intro url hurl; simp [envUserPw, presentStr] at hurl)
  simpa using h

/-- C7: the connection-string parser splits at the last `@`, preserving a
password that itself contains `@`; a credential part without `:` yields no
password, and a missing port defaults to 5432. -/
theorem parse_splits_at_last_at :
    parseConnectionString "postgresql://admin:p@ss@db.example.com:5432/mydb" =
      Except.ok { host := "db.example.com", port := 5432, user := some "admin",
                  password := some "p@ss", database := some "mydb" } ∧
    parseConnectionString "postgresql://user@host/db" =
      Except.ok { host := "host", port := 5432, user := some "user",
                  password := none, database := some "db" } := by
  decide

/-- C8 counterexample: the parser accepts a port of 70000 verbatim — the
resulting record violates the claimed `[1, 65535]` range invariant. -/
theorem parse_port_unclamped :
    parseConnectionString "postgresql://u@h:70000/d" =
      Except.ok { host := "h", port := 70000, user := some "u",
                  password := none, database := some "d" } ∧
    ¬ ((1 : Int) ≤ 70000 ∧ (70000 : Int) ≤ 65535) := by
  decide

/-- C8 amended: every accepted connection string yields a non-empty host
(`localhost` when the host segment is empty), and the port defaults to
5432 when the port segment is absent or `parseInt` fails on it — but an
out-of-range numeric port is kept as parsed, not clamped to `[1, 65535]`. -/
theorem parse_host_port_defaults :
    (∀ (cs : String) (r : ParsedCS),
      parseConnectionString cs = Except.ok r → r.host ≠ "") ∧
    parseConnectionString "postgresql://u@h/d" =
      Except.ok { host := "h", port := 5432, user := some "u",
                  password := none, database := some "d" } ∧
    parseConnectionString "postgresql://u@h:xyz/d" =
      Except.ok { host := "h", port := 5432, user := some "u",
                  password := none, database := some "d" } ∧
    parseConnectionString "postgresql://u@:5433/d" =
      Except.ok { host := "localhost", port := 5433, user := some "u",
                  password := none, database := some "d" } := by
  refine ⟨?_, by decide, by decide, by decide⟩
  intro cs r h
  unfold parseConnectionString at h
  split at h
  · exact Except.noConfusion h
  · simp only [] at h
    split at h
    · exact Except.noConfusion h
    · injection h with h2
      subst h2
      exact jsStrOr_localhost_ne_empty _

/-- Witness for `parse_host_port_defaults`: the non-empty-host invariant
at a concrete accepted connection string. -/
theorem parse_host_port_defaults_w :
    ({ host := "h", port := 5432, user := some "u", password := none,
       database := some "d" } : ParsedCS).host ≠ "" :=
  parse_host_port_defaults.1 "postgresql://u@h/d" _ (by decide)

/-- C9 counterexample: supplying both `--ssh-key` and `--ssh-password`
(with host and user) is accepted, not rejected as a configuration
error — only the absence of both is. -/
theorem tunnel_both_auth_accepted :
    checkTunnelFlags bothAuthFlags =
      Except.ok (some { sshHost := "bastion", sshPort := 22, sshUser := "alice",
                        sshKey := some "id_rsa", sshPassword := some "hunter2" }) ∧
    exceptIsError (checkTunnelFlags bothAuthFlags) = false := by
  decide

/-- C9 amended: with a tunnel host and user configured, the flag check
fails (before any network attempt — `createTunnel` is only invoked on the
`ok` path) exactly when neither a private-key path nor a password is
supplied; supplying one, or both, is accepted. -/
theorem tunnel_auth_requirement (flags : ConnectionFlags) (hst u : String)
    (hh : presentStr flags.sshHost = some hst)
    (hu : presentStr flags.sshUser = some u) :
    exceptIsError (checkTunnelFlags flags) = true ↔
      (presentStr flags.sshKey = none ∧ presentStr flags.sshPassword = none) := by
  unfold checkTunnelFlags
  rw [hh, hu]
  by_cases hkp : presentStr flags.sshKey = none ∧ presentStr flags.sshPassword = none
  · simp [hkp, exceptIsError]
  · simp [hkp, exceptIsError]

/-- Witness for `tunnel_auth_requirement`: host and user but neither
credential is a configuration error. -/
theorem tunnel_auth_requirement_w :
    exceptIsError (checkTunnelFlags neitherAuthFlags) = true :=
  (tunnel_auth_requirement neitherAuthFlags "bastion" "alice"
    (by decide) (by decide)).mpr (by decide)

/-- C10: the classifier's allow-set strictly extends the five statement
kinds advertised by the execute-query tool description: `TABLE users` is
classified read-only although `TABLE` is not an advertised kind. -/
theorem table_allowed_beyond_advertised :
    isReadOnlyQuery "TABLE users" = true ∧
    ALLOWED_FIRST_WORDS.contains "TABLE" = true ∧
    advertisedStatementKinds.contains "TABLE" = false ∧
    advertisedStatementKinds.all (fun w => ALLOWED_FIRST_WORDS.contains w) = true := by
  decide
